import Mathlib

/-!
# AArch32 Cortex-A/R fault handling

A shallow embedding of `arch/arm/core/aarch32/cortex_a_r/fault.c`:

* the status register decoder (`get_dbgdscr_moe_string`, `dump_debug_event`, `dump_fault`),
* the callee-saved register dumper (`dump_callee_saved_registers`),
* the lazy floating-point filter (`z_arm_fault_undef_instruction_fp`),
* the three fault classifiers (`z_arm_fault_undef_instruction`, `z_arm_fault_prefetch`,
  `z_arm_fault_data`).

The C functions read and write processor registers, kernel globals and exception stack
frames; here they are functions on an explicit `Machine` state.  Every `LOG_ERR` call and
every call of the external routine `z_arm_fatal_error` is appended to `Machine.trace`, so
the order of the observable events can be stated.  Unsigned 32-bit quantities are natural
numbers; the one narrowing store in the file (into the `user_options` field of the thread)
is reduced modulo the width of that field explicitly.
-/

namespace Fault

/-! ## Header constants and build configuration -/

/-- The preprocessor constants `fault.c` takes from the architecture and kernel headers,
and the width in bits of the thread field `user_options`.  Their definitions are not part
of the translated sources, so the functions below take them as a parameter. -/
structure Consts where
  user_options_bits : Nat
  FPEXC_EN : Nat
  K_FP_REGS : Nat
  K_ERR_CPU_EXCEPTION : Nat
  IFSR_FS1_Msk : Nat
  IFSR_FS0_Msk : Nat
  DFSR_FS1_Msk : Nat
  DFSR_FS0_Msk : Nat
  DBGDSCR_MOE_Msk : Nat
  DBGDSCR_MOE_Pos : Nat
  DBGDSCR_MOE_HALT_REQUEST : Nat
  DBGDSCR_MOE_BREAKPOINT : Nat
  DBGDSCR_MOE_ASYNC_WATCHPOINT : Nat
  DBGDSCR_MOE_BKPT_INSTRUCTION : Nat
  DBGDSCR_MOE_EXT_DEBUG_REQUEST : Nat
  DBGDSCR_MOE_VECTOR_CATCH : Nat
  DBGDSCR_MOE_OS_UNLOCK_CATCH : Nat
  DBGDSCR_MOE_SYNC_WATCHPOINT : Nat
  FSR_FS_ALIGNMENT_FAULT : Nat
  FSR_FS_BACKGROUND_FAULT : Nat
  FSR_FS_PERMISSION_FAULT : Nat
  FSR_FS_SYNC_EXTERNAL_ABORT : Nat
  FSR_FS_ASYNC_EXTERNAL_ABORT : Nat
  FSR_FS_SYNC_PARITY_ERROR : Nat
  FSR_FS_ASYNC_PARITY_ERROR : Nat
  FSR_FS_DEBUG_EVENT : Nat

/-- The two Kconfig switches the file is compiled under. -/
structure Kconfig where
  CONFIG_FAULT_DUMP : Nat
  CONFIG_FPU_SHARING : Bool

/-- The macro `FAULT_DUMP_VERBOSE`, that is `(CONFIG_FAULT_DUMP == 2)`. -/
def FAULT_DUMP_VERBOSE (k : Kconfig) : Bool := k.CONFIG_FAULT_DUMP == 2

/-- The case labels of the `switch` in `dump_fault`, in source order. -/
def fsr_table (c : Consts) : List Nat :=
  [c.FSR_FS_ALIGNMENT_FAULT, c.FSR_FS_BACKGROUND_FAULT, c.FSR_FS_PERMISSION_FAULT,
   c.FSR_FS_SYNC_EXTERNAL_ABORT, c.FSR_FS_ASYNC_EXTERNAL_ABORT, c.FSR_FS_SYNC_PARITY_ERROR,
   c.FSR_FS_ASYNC_PARITY_ERROR, c.FSR_FS_DEBUG_EVENT]

/-- The case labels of the `switch` in `get_dbgdscr_moe_string`, in source order. -/
def moe_table (c : Consts) : List Nat :=
  [c.DBGDSCR_MOE_HALT_REQUEST, c.DBGDSCR_MOE_BREAKPOINT, c.DBGDSCR_MOE_ASYNC_WATCHPOINT,
   c.DBGDSCR_MOE_BKPT_INSTRUCTION, c.DBGDSCR_MOE_EXT_DEBUG_REQUEST,
   c.DBGDSCR_MOE_VECTOR_CATCH, c.DBGDSCR_MOE_OS_UNLOCK_CATCH, c.DBGDSCR_MOE_SYNC_WATCHPOINT]

/-- One assignment of the header constants: the ARMv7-R short-descriptor fault status
encodings, the DBGDSCR method-of-entry field, bit 30 of FPEXC and bit 1 of an 8-bit thread
options field.  It serves as the concrete instance at which the theorems are exercised. -/
def armv7r : Consts where
  user_options_bits := 8
  FPEXC_EN := 2 ^ 30
  K_FP_REGS := 2
  K_ERR_CPU_EXCEPTION := 0
  IFSR_FS1_Msk := 2 ^ 10
  IFSR_FS0_Msk := 15
  DFSR_FS1_Msk := 2 ^ 10
  DFSR_FS0_Msk := 15
  DBGDSCR_MOE_Msk := 60
  DBGDSCR_MOE_Pos := 2
  DBGDSCR_MOE_HALT_REQUEST := 0
  DBGDSCR_MOE_BREAKPOINT := 1
  DBGDSCR_MOE_ASYNC_WATCHPOINT := 2
  DBGDSCR_MOE_BKPT_INSTRUCTION := 3
  DBGDSCR_MOE_EXT_DEBUG_REQUEST := 4
  DBGDSCR_MOE_VECTOR_CATCH := 5
  DBGDSCR_MOE_OS_UNLOCK_CATCH := 8
  DBGDSCR_MOE_SYNC_WATCHPOINT := 10
  FSR_FS_ALIGNMENT_FAULT := 1
  FSR_FS_BACKGROUND_FAULT := 0
  FSR_FS_PERMISSION_FAULT := 13
  FSR_FS_SYNC_EXTERNAL_ABORT := 8
  FSR_FS_ASYNC_EXTERNAL_ABORT := 22
  FSR_FS_SYNC_PARITY_ERROR := 25
  FSR_FS_ASYNC_PARITY_ERROR := 24
  FSR_FS_DEBUG_EVENT := 2

/-! ## Data model -/

/-- A pointer: `none` is `NULL`, `some a` is the address `a`. -/
abbrev Ptr := Option Nat

/-- Modelled from the spec: the declaration of `z_arch_esf_t` is not among the sources.
The exception stack frame holds the caller-saved general-purpose registers and the return
state captured at trap entry and, for floating-point sharing, the area `fault.c` accesses
by name: the registers `s[16]`, the status word `fpscr` and the word `undefined` whose
`FPEXC_EN` bit records that the unit was enabled. -/
structure Esf where
  a1 : Nat
  a2 : Nat
  a3 : Nat
  a4 : Nat
  ip : Nat
  lr : Nat
  pc : Nat
  xpsr : Nat
  s : Fin 16 → Nat
  fpscr : Nat
  undefined : Nat

/-- Modelled from the spec: the declaration of `_callee_saved_t` is not among the sources.
The callee-saved block holds the preserved registers `v1 .. v8` and the saved stack
pointer `psp`, the fields `dump_callee_saved_registers` prints. -/
structure CalleeSaved where
  v1 : Nat
  v2 : Nat
  v3 : Nat
  v4 : Nat
  v5 : Nat
  v6 : Nat
  v7 : Nat
  v8 : Nat
  psp : Nat
deriving DecidableEq

/-- An argument of a `LOG_ERR` call. -/
inductive Arg where
  | u32 (v : Nat)
  | str (s : String)
deriving DecidableEq

/-- An observable event: a `LOG_ERR` call with its format string and arguments, or a call
of the external fatal escalation routine `z_arm_fatal_error(reason, esf)`. -/
inductive Event where
  | log (fmt : String) (args : List Arg)
  | fatal (reason : Nat) (esf : Ptr)
deriving DecidableEq

/-- Everything `fault.c` reads or writes.

* `FPEXC`, `FPSCR`, `S` (the single-precision bank `s0, s1, ...`), `IFSR`, `IFAR`, `DFSR`,
  `DFAR`, `DBGDSCR`: the coprocessor registers behind the `__get_*` and `__set_*` intrinsics;
* `nested`, `fp_ctx`: the fields of `_kernel.cpus[0]`;
* `user_options`: the field `_current->base.user_options` of the current thread;
* `esf_mem`: the exception stack frames in memory, by address;
* `trace`: the events emitted so far, oldest first. -/
structure Machine where
  FPEXC : Nat
  FPSCR : Nat
  S : Nat → Nat
  IFSR : Nat
  IFAR : Nat
  DFSR : Nat
  DFAR : Nat
  DBGDSCR : Nat
  nested : Nat
  fp_ctx : Ptr
  user_options : Nat
  esf_mem : Nat → Option Esf
  trace : List Event

/-- Reading through a frame pointer; `none` when the pointer is `NULL` or does not address
a frame. -/
def load (m : Machine) (p : Ptr) : Option Esf :=
  match p with
  | none => none
  | some a => m.esf_mem a

/-- Writing fields of the frame a pointer addresses (`p->field = ...`); `none` when the
pointer is `NULL` or does not address a frame. -/
def modify (m : Machine) (p : Ptr) (g : Esf → Esf) : Option Machine :=
  match p with
  | none => none
  | some a =>
    match m.esf_mem a with
    | none => none
    | some f => some { m with esf_mem := Function.update m.esf_mem a (some (g f)) }

/-! ## Diagnostic output -/

/-- The lower-case hexadecimal digit of a value below 16. -/
def hexDigit (d : Nat) : Char :=
  if d < 10 then Char.ofNat (48 + d) else Char.ofNat (87 + d)

/-- The `w` least significant hexadecimal digits of `v`, most significant first. -/
def hexFixed : Nat → Nat → List Char
  | 0, _ => []
  | w + 1, v => hexFixed w (v / 16) ++ [hexDigit (v % 16)]

/-- The value of a hexadecimal digit character (lower case). -/
def hexDigitVal (ch : Char) : Nat :=
  if ch.toNat < 58 then ch.toNat - 48 else ch.toNat - 87

/-- The number a string of hexadecimal digits denotes. -/
def hexVal (cs : List Char) : Nat :=
  cs.foldl (fun acc ch => acc * 16 + hexDigitVal ch) 0

/-- Expansion of a format string over its arguments, for the three conversions `fault.c`
uses.  The numeric arguments are `u32_t`: `%08x` of such a value is its eight hexadecimal
digits (zero padded), `%u` its decimal digits; `%s` copies a string. -/
def format : List Char → List Arg → List Char
  | '%' :: '0' :: '8' :: 'x' :: rest, Arg.u32 v :: args =>
      hexFixed 8 (v % 2 ^ 32) ++ format rest args
  | '%' :: 'u' :: rest, Arg.u32 v :: args =>
      Nat.toDigits 10 (v % 2 ^ 32) ++ format rest args
  | '%' :: 's' :: rest, Arg.str s :: args => s.data ++ format rest args
  | ch :: rest, args => ch :: format rest args
  | [], _ => []

/-- The text of a log line. -/
def render (fmt : String) (args : List Arg) : String :=
  String.mk (format fmt.data args)

/-- The text of a logged event; a call of the fatal routine is not a log line. -/
def Event.text : Event → Option String
  | Event.log fmt args => some (render fmt args)
  | Event.fatal _ _ => none

/-- The calls of `z_arm_fatal_error` in a run of events, in order. -/
def fatal_calls : List Event → List (Nat × Ptr)
  | [] => []
  | Event.fatal reason esf :: es => (reason, esf) :: fatal_calls es
  | Event.log _ _ :: es => fatal_calls es

/-- The macro `LOG_ERR(fmt, args...)`: one more line in the trace. -/
def LOG_ERR (fmt : String) (args : List Arg) (m : Machine) : Machine :=
  { m with trace := m.trace ++ [Event.log fmt args] }

/-- The external routine `z_arm_fatal_error(reason, esf)`: its call is recorded; what it
does afterwards is outside this file. -/
def z_arm_fatal_error (reason : Nat) (esf : Ptr) (m : Machine) : Machine :=
  { m with trace := m.trace ++ [Event.fatal reason esf] }

/-- `get_dbgdscr_moe_string` (fault.c, lines 16-38).  The `switch` is the chain of
comparisons in the order of its case labels. -/
def get_dbgdscr_moe_string (c : Consts) (moe : Nat) : String :=
  if moe = c.DBGDSCR_MOE_HALT_REQUEST then "Halt Request"
  else if moe = c.DBGDSCR_MOE_BREAKPOINT then "Breakpoint"
  else if moe = c.DBGDSCR_MOE_ASYNC_WATCHPOINT then "Asynchronous Watchpoint"
  else if moe = c.DBGDSCR_MOE_BKPT_INSTRUCTION then "BKPT Instruction"
  else if moe = c.DBGDSCR_MOE_EXT_DEBUG_REQUEST then "External Debug Request"
  else if moe = c.DBGDSCR_MOE_VECTOR_CATCH then "Vector Catch"
  else if moe = c.DBGDSCR_MOE_OS_UNLOCK_CATCH then "OS Unlock Catch"
  else if moe = c.DBGDSCR_MOE_SYNC_WATCHPOINT then "Synchronous Watchpoint"
  else "Unknown"

/-- `dump_debug_event` (fault.c, lines 40-48). -/
def dump_debug_event (c : Consts) (m : Machine) : Machine :=
  let dbgdscr := m.DBGDSCR
  let moe := (dbgdscr &&& c.DBGDSCR_MOE_Msk) >>> c.DBGDSCR_MOE_Pos
  LOG_ERR "Debug Event (%s)" [Arg.str (get_dbgdscr_moe_string c moe)] m

/-- `dump_fault` (fault.c, lines 50-85).  The `switch` is the chain of comparisons in the
order of its case labels. -/
def dump_fault (c : Consts) (status addr : Nat) (m : Machine) : Machine :=
  if status = c.FSR_FS_ALIGNMENT_FAULT then
    LOG_ERR "Alignment Fault @ 0x%08x" [Arg.u32 addr] m
  else if status = c.FSR_FS_BACKGROUND_FAULT then
    LOG_ERR "Background Fault @ 0x%08x" [Arg.u32 addr] m
  else if status = c.FSR_FS_PERMISSION_FAULT then
    LOG_ERR "Permission Fault @ 0x%08x" [Arg.u32 addr] m
  else if status = c.FSR_FS_SYNC_EXTERNAL_ABORT then
    LOG_ERR "Synchronous External Abort @ 0x%08x" [Arg.u32 addr] m
  else if status = c.FSR_FS_ASYNC_EXTERNAL_ABORT then
    LOG_ERR "Asynchronous External Abort" [] m
  else if status = c.FSR_FS_SYNC_PARITY_ERROR then
    LOG_ERR "Synchronous Parity/ECC Error @ 0x%08x" [Arg.u32 addr] m
  else if status = c.FSR_FS_ASYNC_PARITY_ERROR then
    LOG_ERR "Asynchronous Parity/ECC Error" [] m
  else if status = c.FSR_FS_DEBUG_EVENT then
    dump_debug_event c m
  else
    LOG_ERR "Unknown (%u)" [Arg.u32 status] m

/-- `dump_callee_saved_registers` (fault.c, lines 88-96). -/
def dump_callee_saved_registers (cs : CalleeSaved) (m : Machine) : Machine :=
  let m := LOG_ERR " r4: 0x%08x  r5:  0x%08x  r6:  %08x"
    [Arg.u32 cs.v1, Arg.u32 cs.v2, Arg.u32 cs.v3] m
  let m := LOG_ERR " r7: 0x%08x  r8:  0x%08x  r9:  %08x"
    [Arg.u32 cs.v4, Arg.u32 cs.v5, Arg.u32 cs.v6] m
  LOG_ERR "r10: 0x%08x r11:  0x%08x psp:  %08x"
    [Arg.u32 cs.v7, Arg.u32 cs.v8, Arg.u32 cs.psp] m

/-! ## Lazy floating-point filter and fault classifiers -/

/-- The spill of the floating-point context into the frame `p` points to: the three
statements of fault.c, lines 143-149 (and, with `FPEXC` stored instead of or-ed in, lines
173-179).  `vstmia p, {s0-s15}` stores `s0 .. s15` to `s[0] .. s[15]`. -/
def spill_vfp (p : Ptr) (undef : Esf → Nat) (m : Machine) : Option Machine := do
  let m ← modify m p (fun f => { f with undefined := undef f })
  let m ← modify m p (fun f => { f with fpscr := m.FPSCR })
  modify m p (fun f => { f with s := fun i => m.S i.val })

/-- `z_arm_fault_undef_instruction_fp` (fault.c, lines 105-162).  The result is `none` when
the function dereferences a pointer that addresses no frame; otherwise the returned `bool`
and the machine state after the call. -/
def z_arm_fault_undef_instruction_fp (c : Consts) (_esf : Ptr) (m : Machine) :
    Option (Bool × Machine) :=
  if m.FPEXC &&& c.FPEXC_EN ≠ 0 then
    some (true, m)
  else
    let m := { m with FPEXC := c.FPEXC_EN }
    if m.nested > 1 then
      let spill_esf := m.fp_ctx
      let m := { m with fp_ctx := none }
      if m.nested = 2 ∧ m.user_options &&& c.K_FP_REGS ≠ 0 then
        (spill_vfp spill_esf (fun f => f.undefined ||| c.FPEXC_EN) m).map (fun m => (false, m))
      else if m.nested > 2 then
        match load m spill_esf with
        | none => none
        | some f =>
          if f.undefined &&& c.FPEXC_EN ≠ 0 then
            (spill_vfp spill_esf (fun f => f.undefined ||| c.FPEXC_EN) m).map
              (fun m => (false, m))
          else
            some (false, m)
      else
        some (false, m)
    else
      some (false, { m with
        user_options := (m.user_options ||| c.K_FP_REGS) % 2 ^ c.user_options_bits })

/-- `z_arm_fault_undef_instruction` (fault.c, lines 165-192). -/
def z_arm_fault_undef_instruction (c : Consts) (k : Kconfig) (esf : Ptr)
    (exc_cs : CalleeSaved) (m : Machine) : Option (Bool × Machine) := do
  let m ← if k.CONFIG_FPU_SHARING then spill_vfp esf (fun _ => m.FPEXC) m else some m
  let m := LOG_ERR "***** UNDEFINED INSTRUCTION ABORT *****" [] m
  let m := dump_callee_saved_registers exc_cs m
  let m := z_arm_fatal_error c.K_ERR_CPU_EXCEPTION esf m
  some (true, m)

/-- `z_arm_fault_prefetch` (fault.c, lines 199-221). -/
def z_arm_fault_prefetch (c : Consts) (k : Kconfig) (esf : Ptr) (exc_cs : CalleeSaved)
    (m : Machine) : Bool × Machine :=
  let ifsr := m.IFSR
  let fs := ((ifsr &&& c.IFSR_FS1_Msk) >>> 6) ||| (ifsr &&& c.IFSR_FS0_Msk)
  let ifar := m.IFAR
  let m := LOG_ERR "***** PREFETCH ABORT *****" [] m
  let m := if FAULT_DUMP_VERBOSE k then dump_fault c fs ifar m else m
  let m := dump_callee_saved_registers exc_cs m
  let m := z_arm_fatal_error c.K_ERR_CPU_EXCEPTION esf m
  (true, m)

/-- `z_arm_fault_data` (fault.c, lines 228-250). -/
def z_arm_fault_data (c : Consts) (k : Kconfig) (esf : Ptr) (exc_cs : CalleeSaved)
    (m : Machine) : Bool × Machine :=
  let dfsr := m.DFSR
  let fs := ((dfsr &&& c.DFSR_FS1_Msk) >>> 6) ||| (dfsr &&& c.DFSR_FS0_Msk)
  let dfar := m.DFAR
  let m := LOG_ERR "***** DATA ABORT *****" [] m
  let m := if FAULT_DUMP_VERBOSE k then dump_fault c fs dfar m else m
  let m := dump_callee_saved_registers exc_cs m
  let m := z_arm_fatal_error c.K_ERR_CPU_EXCEPTION esf m
  (true, m)

/-- The events appended to the trace between two machine states. -/
def emitted (m m' : Machine) : List Event := m'.trace.drop m.trace.length

/-- A machine state used to exercise the theorems: `FPEXC` holds `fpexc`, the exception
nesting counter is `n`, the pending pointer is `ctx`, the thread options are `opts`, and
addresses 1 and 2 hold frames whose `undefined` words are `u1` and `u2`. -/
def sample (fpexc n : Nat) (ctx : Ptr) (opts u1 u2 : Nat) : Machine where
  FPEXC := fpexc
  FPSCR := 0x10
  S := fun i => 100 + i
  IFSR := 0x40d
  IFAR := 0x1000
  DFSR := 0xd
  DFAR := 0xDEAD0000
  DBGDSCR := 4
  nested := n
  fp_ctx := ctx
  user_options := opts
  esf_mem := fun a =>
    if a = 1 then some ⟨1, 2, 3, 4, 5, 6, 7, 8, fun _ => 0, 0, u1⟩
    else if a = 2 then some ⟨11, 12, 13, 14, 15, 16, 17, 18, fun _ => 0, 0, u2⟩
    else none
  trace := []

/-- A callee-saved block used to exercise the theorems. -/
def sample_cs : CalleeSaved := ⟨4, 5, 6, 7, 8, 9, 10, 11, 0x20001000⟩

/-! ## Auxiliary facts -/

theorem spill_vfp_some (a : Nat) (f : Esf) (u : Esf → Nat) (m : Machine)
    (h : m.esf_mem a = some f) :
    spill_vfp (some a) u m = some { m with
      esf_mem := (Function.update m.esf_mem a
        (some { f with undefined := u f, fpscr := m.FPSCR, s := fun i => m.S i.val })) } := by
  simp [spill_vfp, modify, h, Option.bind]

theorem or_and_self_right (x y : Nat) : (x ||| y) &&& y = y := by
  apply Nat.eq_of_testBit_eq
  intro i
  rw [Nat.testBit_and, Nat.testBit_or]
  cases x.testBit i <;> cases y.testBit i <;> rfl

theorem dump_fault_one_line (c : Consts) (status addr : Nat) (m : Machine) :
    ∃ fmt args, ∀ m' : Machine, m'.DBGDSCR = m.DBGDSCR →
      dump_fault c status addr m' = LOG_ERR fmt args m' := by
  unfold dump_fault
  split_ifs
  all_goals first
    | exact ⟨_, _, fun _ _ => rfl⟩
    | exact ⟨"Debug Event (%s)", [Arg.str (get_dbgdscr_moe_string c
        ((m.DBGDSCR &&& c.DBGDSCR_MOE_Msk) >>> c.DBGDSCR_MOE_Pos))],
        fun m' h' => by unfold dump_debug_event; rw [h']⟩

theorem emitted_LOG_ERR (fmt : String) (args : List Arg) (m : Machine) :
    emitted m (LOG_ERR fmt args m) = [Event.log fmt args] := by
  simp [emitted, LOG_ERR]

theorem dump_fault_table (c : Consts) (addr : Nat) (m : Machine)
    (hd : (fsr_table c).Nodup) :
    dump_fault c c.FSR_FS_ALIGNMENT_FAULT addr m =
      LOG_ERR "Alignment Fault @ 0x%08x" [Arg.u32 addr] m ∧
    dump_fault c c.FSR_FS_BACKGROUND_FAULT addr m =
      LOG_ERR "Background Fault @ 0x%08x" [Arg.u32 addr] m ∧
    dump_fault c c.FSR_FS_PERMISSION_FAULT addr m =
      LOG_ERR "Permission Fault @ 0x%08x" [Arg.u32 addr] m ∧
    dump_fault c c.FSR_FS_SYNC_EXTERNAL_ABORT addr m =
      LOG_ERR "Synchronous External Abort @ 0x%08x" [Arg.u32 addr] m ∧
    dump_fault c c.FSR_FS_ASYNC_EXTERNAL_ABORT addr m =
      LOG_ERR "Asynchronous External Abort" [] m ∧
    dump_fault c c.FSR_FS_SYNC_PARITY_ERROR addr m =
      LOG_ERR "Synchronous Parity/ECC Error @ 0x%08x" [Arg.u32 addr] m ∧
    dump_fault c c.FSR_FS_ASYNC_PARITY_ERROR addr m =
      LOG_ERR "Asynchronous Parity/ECC Error" [] m ∧
    dump_fault c c.FSR_FS_DEBUG_EVENT addr m = dump_debug_event c m ∧
    ∀ status, status ∉ fsr_table c →
      dump_fault c status addr m = LOG_ERR "Unknown (%u)" [Arg.u32 status] m := by
  simp only [fsr_table, List.nodup_cons, List.mem_cons, List.mem_singleton, not_or,
    List.not_mem_nil, not_false_eq_true, List.nodup_nil, and_true] at hd
  obtain ⟨⟨h12, h13, h14, h15, h16, h17, h18⟩, ⟨h23, h24, h25, h26, h27, h28⟩,
    ⟨h34, h35, h36, h37, h38⟩, ⟨h45, h46, h47, h48⟩, ⟨h56, h57, h58⟩, ⟨h67, h68⟩, h78⟩ := hd
  refine ⟨?_, ?_, ?_, ?_, ?_, ?_, ?_, ?_, ?_⟩
  · rw [dump_fault, if_pos rfl]
  · rw [dump_fault, if_neg (Ne.symm h12), if_pos rfl]
  · rw [dump_fault, if_neg (Ne.symm h13), if_neg (Ne.symm h23), if_pos rfl]
  · rw [dump_fault, if_neg (Ne.symm h14), if_neg (Ne.symm h24), if_neg (Ne.symm h34),
      if_pos rfl]
  · rw [dump_fault, if_neg (Ne.symm h15), if_neg (Ne.symm h25), if_neg (Ne.symm h35),
      if_neg (Ne.symm h45), if_pos rfl]
  · rw [dump_fault, if_neg (Ne.symm h16), if_neg (Ne.symm h26), if_neg (Ne.symm h36),
      if_neg (Ne.symm h46), if_neg (Ne.symm h56), if_pos rfl]
  · rw [dump_fault, if_neg (Ne.symm h17), if_neg (Ne.symm h27), if_neg (Ne.symm h37),
      if_neg (Ne.symm h47), if_neg (Ne.symm h57), if_neg (Ne.symm h67), if_pos rfl]
  · rw [dump_fault, if_neg (Ne.symm h18), if_neg (Ne.symm h28), if_neg (Ne.symm h38),
      if_neg (Ne.symm h48), if_neg (Ne.symm h58), if_neg (Ne.symm h68),
      if_neg (Ne.symm h78), if_pos rfl]
  · intro status hs
    simp only [fsr_table, List.mem_cons, List.mem_singleton, not_or, List.not_mem_nil,
      not_false_eq_true, and_true] at hs
    obtain ⟨k1, k2, k3, k4, k5, k6, k7, k8⟩ := hs
    rw [dump_fault, if_neg k1, if_neg k2, if_neg k3, if_neg k4, if_neg k5, if_neg k6,
      if_neg k7, if_neg k8]

theorem moe_string_table (c : Consts) (hd : (moe_table c).Nodup) :
    get_dbgdscr_moe_string c c.DBGDSCR_MOE_HALT_REQUEST = "Halt Request" ∧
    get_dbgdscr_moe_string c c.DBGDSCR_MOE_BREAKPOINT = "Breakpoint" ∧
    get_dbgdscr_moe_string c c.DBGDSCR_MOE_ASYNC_WATCHPOINT = "Asynchronous Watchpoint" ∧
    get_dbgdscr_moe_string c c.DBGDSCR_MOE_BKPT_INSTRUCTION = "BKPT Instruction" ∧
    get_dbgdscr_moe_string c c.DBGDSCR_MOE_EXT_DEBUG_REQUEST = "External Debug Request" ∧
    get_dbgdscr_moe_string c c.DBGDSCR_MOE_VECTOR_CATCH = "Vector Catch" ∧
    get_dbgdscr_moe_string c c.DBGDSCR_MOE_OS_UNLOCK_CATCH = "OS Unlock Catch" ∧
    get_dbgdscr_moe_string c c.DBGDSCR_MOE_SYNC_WATCHPOINT = "Synchronous Watchpoint" ∧
    ∀ moe, moe ∉ moe_table c → get_dbgdscr_moe_string c moe = "Unknown" := by
  simp only [moe_table, List.nodup_cons, List.mem_cons, List.mem_singleton, not_or,
    List.not_mem_nil, not_false_eq_true, List.nodup_nil, and_true] at hd
  obtain ⟨⟨h12, h13, h14, h15, h16, h17, h18⟩, ⟨h23, h24, h25, h26, h27, h28⟩,
    ⟨h34, h35, h36, h37, h38⟩, ⟨h45, h46, h47, h48⟩, ⟨h56, h57, h58⟩, ⟨h67, h68⟩, h78⟩ := hd
  refine ⟨?_, ?_, ?_, ?_, ?_, ?_, ?_, ?_, ?_⟩
  · rw [get_dbgdscr_moe_string, if_pos rfl]
  · rw [get_dbgdscr_moe_string, if_neg (Ne.symm h12), if_pos rfl]
  · rw [get_dbgdscr_moe_string, if_neg (Ne.symm h13), if_neg (Ne.symm h23), if_pos rfl]
  · rw [get_dbgdscr_moe_string, if_neg (Ne.symm h14), if_neg (Ne.symm h24),
      if_neg (Ne.symm h34), if_pos rfl]
  · rw [get_dbgdscr_moe_string, if_neg (Ne.symm h15), if_neg (Ne.symm h25),
      if_neg (Ne.symm h35), if_neg (Ne.symm h45), if_pos rfl]
  · rw [get_dbgdscr_moe_string, if_neg (Ne.symm h16), if_neg (Ne.symm h26),
      if_neg (Ne.symm h36), if_neg (Ne.symm h46), if_neg (Ne.symm h56), if_pos rfl]
  · rw [get_dbgdscr_moe_string, if_neg (Ne.symm h17), if_neg (Ne.symm h27),
      if_neg (Ne.symm h37), if_neg (Ne.symm h47), if_neg (Ne.symm h57),
      if_neg (Ne.symm h67), if_pos rfl]
  · rw [get_dbgdscr_moe_string, if_neg (Ne.symm h18), if_neg (Ne.symm h28),
      if_neg (Ne.symm h38), if_neg (Ne.symm h48), if_neg (Ne.symm h58),
      if_neg (Ne.symm h68), if_neg (Ne.symm h78), if_pos rfl]
  · intro moe hs
    simp only [moe_table, List.mem_cons, List.mem_singleton, not_or, List.not_mem_nil,
      not_false_eq_true, and_true] at hs
    obtain ⟨k1, k2, k3, k4, k5, k6, k7, k8⟩ := hs
    rw [get_dbgdscr_moe_string, if_neg k1, if_neg k2, if_neg k3, if_neg k4, if_neg k5,
      if_neg k6, if_neg k7, if_neg k8]

theorem render_alignment (addr : Nat) : render "Alignment Fault @ 0x%08x" [Arg.u32 addr] =
    "Alignment Fault" ++ " @ 0x" ++ String.mk (hexFixed 8 (addr % 2 ^ 32)) := rfl

theorem render_background (addr : Nat) : render "Background Fault @ 0x%08x" [Arg.u32 addr] =
    "Background Fault" ++ " @ 0x" ++ String.mk (hexFixed 8 (addr % 2 ^ 32)) := rfl

theorem render_permission (addr : Nat) : render "Permission Fault @ 0x%08x" [Arg.u32 addr] =
    "Permission Fault" ++ " @ 0x" ++ String.mk (hexFixed 8 (addr % 2 ^ 32)) := rfl

theorem render_sync_external (addr : Nat) :
    render "Synchronous External Abort @ 0x%08x" [Arg.u32 addr] =
    "Synchronous External Abort" ++ " @ 0x" ++ String.mk (hexFixed 8 (addr % 2 ^ 32)) := rfl

theorem render_sync_parity (addr : Nat) :
    render "Synchronous Parity/ECC Error @ 0x%08x" [Arg.u32 addr] =
    "Synchronous Parity/ECC Error" ++ " @ 0x" ++ String.mk (hexFixed 8 (addr % 2 ^ 32)) := rfl

theorem render_unknown (status : Nat) : render "Unknown (%u)" [Arg.u32 status] =
    "Unknown (" ++ toString (status % 2 ^ 32) ++ ")" := rfl

theorem render_debug (s : String) : render "Debug Event (%s)" [Arg.str s] =
    "Debug Event (" ++ s ++ ")" := rfl

theorem text_LOG_ERR (fmt : String) (args : List Arg) (m : Machine) :
    (emitted m (LOG_ERR fmt args m)).map Event.text = [some (render fmt args)] := by
  rw [emitted_LOG_ERR]; rfl

theorem render_permission_dead0000 :
    render "Permission Fault @ 0x%08x" [Arg.u32 0xDEAD0000] = "Permission Fault @ 0xdead0000" := by
  decide

theorem hexFixed_length (w v : Nat) : (hexFixed w v).length = w := by
  induction w generalizing v with
  | zero => rfl
  | succ w ih => simp [hexFixed, ih]

theorem hexDigit_mem : ∀ d, d < 16 → hexDigit d ∈ "0123456789abcdef".data := by decide

theorem hexDigitVal_hexDigit : ∀ d, d < 16 → hexDigitVal (hexDigit d) = d := by decide

theorem hexFixed_mem (w v : Nat) : ∀ ch ∈ hexFixed w v, ch ∈ "0123456789abcdef".data := by
  induction w generalizing v with
  | zero => intro ch h; simp [hexFixed] at h
  | succ w ih =>
    intro ch h
    simp only [hexFixed, List.mem_append, List.mem_singleton] at h
    rcases h with h | h
    · exact ih _ _ h
    · rw [h]; exact hexDigit_mem _ (Nat.mod_lt _ (by decide))

theorem hexVal_append (l : List Char) (ch : Char) :
    hexVal (l ++ [ch]) = hexVal l * 16 + hexDigitVal ch := by
  simp [hexVal, List.foldl_append]

theorem hexVal_hexFixed (w v : Nat) : hexVal (hexFixed w v) = v % 16 ^ w := by
  induction w generalizing v with
  | zero => simp [hexFixed, hexVal, Nat.mod_one]
  | succ w ih =>
    rw [hexFixed, hexVal_append, ih, hexDigitVal_hexDigit _ (Nat.mod_lt _ (by decide))]
    rw [Nat.pow_succ, Nat.mul_comm (16 ^ w) 16, Nat.mod_mul, Nat.mul_comm]
    omega

theorem and_two_pow_ite (r k : Nat) : r &&& 2 ^ k = if r.testBit k then 2 ^ k else 0 := by
  apply Nat.eq_of_testBit_eq
  intro i
  rw [Nat.testBit_and, Nat.testBit_two_pow]
  by_cases h : k = i
  · subst h
    cases hb : r.testBit k <;> simp [hb]
  · cases hb : r.testBit k <;> simp [h, Nat.testBit_two_pow]

theorem fs_small : ∀ x, x < 16 → ∀ b, b < 2 →
    ((b * 2 ^ 10) >>> 6 ||| x) = b * 16 + x ∧ (b * 16 + x).testBit 4 = decide (b = 1) := by
  decide

theorem fs_value (r : Nat) :
    ((r &&& 2 ^ 10) >>> 6 ||| (r &&& 15)) = (r.testBit 10).toNat * 16 + r % 16 := by
  have h15 : r &&& 15 = r % 16 := Nat.and_pow_two_sub_one_eq_mod r 4
  rw [h15, and_two_pow_ite]
  have hx : r % 16 < 16 := Nat.mod_lt _ (by decide)
  cases hb : r.testBit 10
  · simp
  · simpa using (fs_small _ hx 1 (by decide)).1

/-- C3: when the enable bit `FPEXC_EN` of `FPEXC` is already set, the filter returns `true`
(a genuine fault) and the machine state after the call is the state before it, whatever
the nesting counter is: `FPEXC`, the thread options, the pending pointer, every exception
stack frame and the trace are unchanged. -/
theorem fp_filter_enabled_genuine_fault (c : Consts) (esf : Ptr) (m : Machine)
    (hen : m.FPEXC &&& c.FPEXC_EN ≠ 0) :
    z_arm_fault_undef_instruction_fp c esf m = some (true, m) := by
  simp [z_arm_fault_undef_instruction_fp, hen]

theorem fp_filter_enabled_genuine_fault_witness :
    (sample (2 ^ 30) 3 (some 1) 2 0 0).FPEXC &&& armv7r.FPEXC_EN ≠ 0 ∧
    z_arm_fault_undef_instruction_fp armv7r (some 2) (sample (2 ^ 30) 3 (some 1) 2 0 0) =
      some (true, sample (2 ^ 30) 3 (some 1) 2 0 0) :=
  ⟨by decide, fp_filter_enabled_genuine_fault armv7r (some 2) _ (by decide)⟩

/-- C4: with the unit disabled and the nesting counter equal to 1, the filter returns
`false` (absorbed); afterwards `FPEXC` holds `FPEXC_EN` (so the enable bit is set), the
`K_FP_REGS` bit of the current thread options is set, every other option bit is as before,
and the pending pointer, the exception stack frames and the trace are unchanged.  Here
`FPEXC_EN` is nonzero and `K_FP_REGS` and the options fit the options field. -/
theorem fp_filter_thread_context (c : Consts) (esf : Ptr) (m : Machine)
    (hEN : 0 < c.FPEXC_EN) (hK : c.K_FP_REGS < 2 ^ c.user_options_bits)
    (hopts : m.user_options < 2 ^ c.user_options_bits)
    (hdis : m.FPEXC &&& c.FPEXC_EN = 0) (hnest : m.nested = 1) :
    ∃ m', z_arm_fault_undef_instruction_fp c esf m = some (false, m') ∧
      m'.FPEXC = c.FPEXC_EN ∧ m'.FPEXC &&& c.FPEXC_EN ≠ 0 ∧
      m'.user_options = m.user_options ||| c.K_FP_REGS ∧
      m'.user_options &&& c.K_FP_REGS = c.K_FP_REGS ∧
      (∀ i, c.K_FP_REGS.testBit i = false →
        m'.user_options.testBit i = m.user_options.testBit i) ∧
      m'.fp_ctx = m.fp_ctx ∧ m'.esf_mem = m.esf_mem ∧ m'.nested = m.nested ∧
      m'.trace = m.trace := by
  have hlt : m.user_options ||| c.K_FP_REGS < 2 ^ c.user_options_bits :=
    Nat.or_lt_two_pow hopts hK
  refine ⟨{ m with FPEXC := c.FPEXC_EN,
                   user_options := (m.user_options ||| c.K_FP_REGS) % 2 ^ c.user_options_bits },
    ?_, rfl, ?_,
    ?_, ?_, ?_, rfl, rfl, rfl, rfl⟩
  · simp [z_arm_fault_undef_instruction_fp, hdis, hnest]
  · simp only [Nat.and_self]; omega
  · exact Nat.mod_eq_of_lt hlt
  · show (m.user_options ||| c.K_FP_REGS) % 2 ^ c.user_options_bits &&& c.K_FP_REGS =
      c.K_FP_REGS
    rw [Nat.mod_eq_of_lt hlt]; exact or_and_self_right _ _
  · intro i hi
    show ((m.user_options ||| c.K_FP_REGS) % 2 ^ c.user_options_bits).testBit i =
      m.user_options.testBit i
    rw [Nat.mod_eq_of_lt hlt, Nat.testBit_or, hi, Bool.or_false]

theorem fp_filter_thread_context_witness :
    ∃ m', z_arm_fault_undef_instruction_fp armv7r (some 1) (sample 0 1 none 5 0 0) =
        some (false, m') ∧
      m'.FPEXC = armv7r.FPEXC_EN ∧ m'.FPEXC &&& armv7r.FPEXC_EN ≠ 0 ∧
      m'.user_options = (sample 0 1 none 5 0 0).user_options ||| armv7r.K_FP_REGS ∧
      m'.user_options &&& armv7r.K_FP_REGS = armv7r.K_FP_REGS ∧
      (∀ i, armv7r.K_FP_REGS.testBit i = false →
        m'.user_options.testBit i = (sample 0 1 none 5 0 0).user_options.testBit i) ∧
      m'.fp_ctx = (sample 0 1 none 5 0 0).fp_ctx ∧
      m'.esf_mem = (sample 0 1 none 5 0 0).esf_mem ∧
      m'.nested = (sample 0 1 none 5 0 0).nested ∧
      m'.trace = (sample 0 1 none 5 0 0).trace :=
  fp_filter_thread_context armv7r (some 1) (sample 0 1 none 5 0 0)
    (by decide) (by decide) (by decide) (by decide) (by decide)

/-- C5: with the unit disabled, the nesting counter equal to 2, the `K_FP_REGS` bit of the
current thread options set and the pending pointer addressing a frame `f`, the filter
returns `false` (absorbed); afterwards that frame is `f` with `fpscr` replaced by the
current `FPSCR`, `s[0] .. s[15]` replaced by `s0 .. s15` and `FPEXC_EN` or-ed into
`undefined` (so that flag is set) and no other field changed; the frames at other addresses
are unchanged and the pending pointer is `NULL`. -/
theorem fp_filter_spill_depth_two (c : Consts) (esf : Ptr) (m : Machine) (a : Nat) (f : Esf)
    (hdis : m.FPEXC &&& c.FPEXC_EN = 0) (hnest : m.nested = 2)
    (hflag : m.user_options &&& c.K_FP_REGS ≠ 0)
    (hctx : m.fp_ctx = some a) (hframe : m.esf_mem a = some f) :
    ∃ m', z_arm_fault_undef_instruction_fp c esf m = some (false, m') ∧
      m'.esf_mem a = some { f with undefined := f.undefined ||| c.FPEXC_EN,
                                   fpscr := m.FPSCR,
                                   s := fun i => m.S i.val } ∧
      (f.undefined ||| c.FPEXC_EN) &&& c.FPEXC_EN = c.FPEXC_EN ∧
      (∀ b, b ≠ a → m'.esf_mem b = m.esf_mem b) ∧
      m'.fp_ctx = none ∧ m'.user_options = m.user_options ∧ m'.trace = m.trace := by
  have hsp := spill_vfp_some a f (fun f => f.undefined ||| c.FPEXC_EN)
    { m with FPEXC := c.FPEXC_EN, fp_ctx := none } hframe
  refine ⟨{ m with
      FPEXC := c.FPEXC_EN
      fp_ctx := none
      esf_mem := (Function.update m.esf_mem a
        (some { f with undefined := f.undefined ||| c.FPEXC_EN, fpscr := m.FPSCR,
                       s := fun i => m.S i.val })) },
    ?_, ?_, or_and_self_right _ _, ?_, ?_, ?_, ?_⟩
  · unfold z_arm_fault_undef_instruction_fp
    have h1 : m.nested > 1 := by omega
    rw [if_neg (by simpa using hdis)]
    simp only []
    rw [if_pos h1, if_pos ⟨hnest, hflag⟩, hctx]
    exact (congrArg (Option.map fun m => (false, m)) hsp).trans rfl
  · simp
  · intro b hb
    simp [Function.update_noteq hb]
  · rfl
  · rfl
  · rfl

theorem fp_filter_spill_depth_two_witness :
    ∃ m', z_arm_fault_undef_instruction_fp armv7r (some 2) (sample 0 2 (some 1) 2 7 0) =
        some (false, m') ∧
      m'.esf_mem 1 = some { (⟨1, 2, 3, 4, 5, 6, 7, 8, fun _ => 0, 0, 7⟩ : Esf) with
                              undefined := 7 ||| armv7r.FPEXC_EN,
                              fpscr := (sample 0 2 (some 1) 2 7 0).FPSCR,
                              s := fun i => (sample 0 2 (some 1) 2 7 0).S i.val } ∧
      (7 ||| armv7r.FPEXC_EN) &&& armv7r.FPEXC_EN = armv7r.FPEXC_EN ∧
      (∀ b, b ≠ 1 → m'.esf_mem b = (sample 0 2 (some 1) 2 7 0).esf_mem b) ∧
      m'.fp_ctx = none ∧ m'.user_options = (sample 0 2 (some 1) 2 7 0).user_options ∧
      m'.trace = (sample 0 2 (some 1) 2 7 0).trace :=
  fp_filter_spill_depth_two armv7r (some 2) (sample 0 2 (some 1) 2 7 0) 1
    ⟨1, 2, 3, 4, 5, 6, 7, 8, fun _ => 0, 0, 7⟩ (by decide) rfl (by decide) rfl rfl

/-- C6: with the unit disabled, the nesting counter above 1 and the pending pointer
addressing a frame `f`, whenever neither spill condition holds (not: counter 2 and thread
`K_FP_REGS` bit set; not: counter above 2 and bit `FPEXC_EN` of `f.undefined` set) the
filter returns `false` and leaves every exception stack frame, `f` included, unchanged;
this is so in particular when the counter is 3 and the bit `FPEXC_EN` of `f.undefined` is
clear, whatever the thread options are. -/
theorem fp_filter_no_spill (c : Consts) (esf : Ptr) (m : Machine) (a : Nat) (f : Esf)
    (hdis : m.FPEXC &&& c.FPEXC_EN = 0) (hnest : 1 < m.nested)
    (hctx : m.fp_ctx = some a) (hframe : m.esf_mem a = some f) :
    (¬ (m.nested = 2 ∧ m.user_options &&& c.K_FP_REGS ≠ 0) →
     ¬ (2 < m.nested ∧ f.undefined &&& c.FPEXC_EN ≠ 0) →
      ∃ m', z_arm_fault_undef_instruction_fp c esf m = some (false, m') ∧
        m'.esf_mem = m.esf_mem ∧ m'.esf_mem a = some f) ∧
    (m.nested = 3 → f.undefined &&& c.FPEXC_EN = 0 →
      ∃ m', z_arm_fault_undef_instruction_fp c esf m = some (false, m') ∧
        m'.esf_mem = m.esf_mem ∧ m'.esf_mem a = some f) := by
  have key : ¬ (m.nested = 2 ∧ m.user_options &&& c.K_FP_REGS ≠ 0) →
      ¬ (2 < m.nested ∧ f.undefined &&& c.FPEXC_EN ≠ 0) →
      ∃ m', z_arm_fault_undef_instruction_fp c esf m = some (false, m') ∧
        m'.esf_mem = m.esf_mem ∧ m'.esf_mem a = some f := by
    intro h2 h3
    refine ⟨{ m with FPEXC := c.FPEXC_EN, fp_ctx := none }, ?_, rfl, hframe⟩
    unfold z_arm_fault_undef_instruction_fp
    rw [if_neg (by simpa using hdis)]
    simp only [gt_iff_lt, hnest, if_true]
    rw [if_neg h2]
    by_cases h : 2 < m.nested
    · have hu : ¬ (f.undefined &&& c.FPEXC_EN ≠ 0) := fun hne => h3 ⟨h, hne⟩
      simp only [h, if_true, load, hctx, hframe]
      rw [if_neg hu]
    · simp only [h, if_false]
  refine ⟨key, ?_⟩
  intro h3 hclear
  apply key
  · intro h; omega
  · intro h; exact h.2 hclear

theorem fp_filter_no_spill_witness :
    (sample 0 3 (some 1) 2 0 0).FPEXC &&& armv7r.FPEXC_EN = 0 ∧
    1 < (sample 0 3 (some 1) 2 0 0).nested ∧
    (sample 0 3 (some 1) 2 0 0).user_options &&& armv7r.K_FP_REGS ≠ 0 ∧
    ∃ m', z_arm_fault_undef_instruction_fp armv7r (some 2) (sample 0 3 (some 1) 2 0 0) =
        some (false, m') ∧
      m'.esf_mem = (sample 0 3 (some 1) 2 0 0).esf_mem :=
  ⟨by decide, by decide, by decide, by
    obtain ⟨m', h, h', _⟩ :=
      (fp_filter_no_spill armv7r (some 2) (sample 0 3 (some 1) 2 0 0) 1
        ⟨1, 2, 3, 4, 5, 6, 7, 8, fun _ => 0, 0, 0⟩ (by decide) (by decide) rfl rfl).2
        rfl (by decide)
    exact ⟨m', h, h'⟩⟩

/-! ## The fault classifiers -/

/-- C1: for every machine state (every value of the fault status and fault address
registers included), frame pointer and callee-saved block, `z_arm_fault_prefetch`,
`z_arm_fault_data` and, built without floating-point sharing,
`z_arm_fault_undef_instruction` return `true`, change nothing but the trace, and the
events they append contain exactly one call of `z_arm_fatal_error`, with reason
`K_ERR_CPU_EXCEPTION` and the frame pointer the classifier was given. -/
theorem classifiers_always_fatal (c : Consts) (k : Kconfig) (esf : Ptr) (cs : CalleeSaved)
    (m : Machine) :
    (∃ evs, z_arm_fault_prefetch c k esf cs m = (true, { m with trace := m.trace ++ evs }) ∧
      fatal_calls evs = [(c.K_ERR_CPU_EXCEPTION, esf)]) ∧
    (∃ evs, z_arm_fault_data c k esf cs m = (true, { m with trace := m.trace ++ evs }) ∧
      fatal_calls evs = [(c.K_ERR_CPU_EXCEPTION, esf)]) ∧
    (∃ evs, z_arm_fault_undef_instruction c { k with CONFIG_FPU_SHARING := false } esf cs m =
        some (true, { m with trace := m.trace ++ evs }) ∧
      fatal_calls evs = [(c.K_ERR_CPU_EXCEPTION, esf)]) := by
  refine ⟨?_, ?_, ?_⟩
  · by_cases hv : FAULT_DUMP_VERBOSE k = true
    · obtain ⟨fmt, args, h⟩ := dump_fault_one_line c
        (((m.IFSR &&& c.IFSR_FS1_Msk) >>> 6) ||| (m.IFSR &&& c.IFSR_FS0_Msk)) m.IFAR
        m
      have h := h (LOG_ERR "***** PREFETCH ABORT *****" [] m) rfl
      refine ⟨[Event.log "***** PREFETCH ABORT *****" [], Event.log fmt args,
        Event.log " r4: 0x%08x  r5:  0x%08x  r6:  %08x" [Arg.u32 cs.v1, Arg.u32 cs.v2, Arg.u32 cs.v3],
        Event.log " r7: 0x%08x  r8:  0x%08x  r9:  %08x" [Arg.u32 cs.v4, Arg.u32 cs.v5, Arg.u32 cs.v6],
        Event.log "r10: 0x%08x r11:  0x%08x psp:  %08x" [Arg.u32 cs.v7, Arg.u32 cs.v8, Arg.u32 cs.psp],
        Event.fatal c.K_ERR_CPU_EXCEPTION esf], ?_, rfl⟩
      simp only [z_arm_fault_prefetch, hv, if_true, h]
      simp [LOG_ERR, dump_callee_saved_registers, z_arm_fatal_error]
    · refine ⟨[Event.log "***** PREFETCH ABORT *****" [],
        Event.log " r4: 0x%08x  r5:  0x%08x  r6:  %08x" [Arg.u32 cs.v1, Arg.u32 cs.v2, Arg.u32 cs.v3],
        Event.log " r7: 0x%08x  r8:  0x%08x  r9:  %08x" [Arg.u32 cs.v4, Arg.u32 cs.v5, Arg.u32 cs.v6],
        Event.log "r10: 0x%08x r11:  0x%08x psp:  %08x" [Arg.u32 cs.v7, Arg.u32 cs.v8, Arg.u32 cs.psp],
        Event.fatal c.K_ERR_CPU_EXCEPTION esf], ?_, rfl⟩
      simp only [z_arm_fault_prefetch, hv]
      simp [LOG_ERR, dump_callee_saved_registers, z_arm_fatal_error]
  · by_cases hv : FAULT_DUMP_VERBOSE k = true
    · obtain ⟨fmt, args, h⟩ := dump_fault_one_line c
        (((m.DFSR &&& c.DFSR_FS1_Msk) >>> 6) ||| (m.DFSR &&& c.DFSR_FS0_Msk)) m.DFAR
        m
      have h := h (LOG_ERR "***** DATA ABORT *****" [] m) rfl
      refine ⟨[Event.log "***** DATA ABORT *****" [], Event.log fmt args,
        Event.log " r4: 0x%08x  r5:  0x%08x  r6:  %08x" [Arg.u32 cs.v1, Arg.u32 cs.v2, Arg.u32 cs.v3],
        Event.log " r7: 0x%08x  r8:  0x%08x  r9:  %08x" [Arg.u32 cs.v4, Arg.u32 cs.v5, Arg.u32 cs.v6],
        Event.log "r10: 0x%08x r11:  0x%08x psp:  %08x" [Arg.u32 cs.v7, Arg.u32 cs.v8, Arg.u32 cs.psp],
        Event.fatal c.K_ERR_CPU_EXCEPTION esf], ?_, rfl⟩
      simp only [z_arm_fault_data, hv, if_true, h]
      simp [LOG_ERR, dump_callee_saved_registers, z_arm_fatal_error]
    · refine ⟨[Event.log "***** DATA ABORT *****" [],
        Event.log " r4: 0x%08x  r5:  0x%08x  r6:  %08x" [Arg.u32 cs.v1, Arg.u32 cs.v2, Arg.u32 cs.v3],
        Event.log " r7: 0x%08x  r8:  0x%08x  r9:  %08x" [Arg.u32 cs.v4, Arg.u32 cs.v5, Arg.u32 cs.v6],
        Event.log "r10: 0x%08x r11:  0x%08x psp:  %08x" [Arg.u32 cs.v7, Arg.u32 cs.v8, Arg.u32 cs.psp],
        Event.fatal c.K_ERR_CPU_EXCEPTION esf], ?_, rfl⟩
      simp only [z_arm_fault_data, hv]
      simp [LOG_ERR, dump_callee_saved_registers, z_arm_fatal_error]
  · refine ⟨[Event.log "***** UNDEFINED INSTRUCTION ABORT *****" [],
      Event.log " r4: 0x%08x  r5:  0x%08x  r6:  %08x" [Arg.u32 cs.v1, Arg.u32 cs.v2, Arg.u32 cs.v3],
      Event.log " r7: 0x%08x  r8:  0x%08x  r9:  %08x" [Arg.u32 cs.v4, Arg.u32 cs.v5, Arg.u32 cs.v6],
      Event.log "r10: 0x%08x r11:  0x%08x psp:  %08x" [Arg.u32 cs.v7, Arg.u32 cs.v8, Arg.u32 cs.psp],
      Event.fatal c.K_ERR_CPU_EXCEPTION esf], ?_, rfl⟩
    simp [z_arm_fault_undef_instruction, LOG_ERR, dump_callee_saved_registers,
      z_arm_fatal_error]

/-- C7: when the case labels of `dump_fault` are pairwise distinct and the address is a
32-bit value, the call for an asynchronous kind (`FSR_FS_ASYNC_EXTERNAL_ABORT`,
`FSR_FS_ASYNC_PARITY_ERROR`) is a `LOG_ERR` without arguments, the same for every address,
whose text contains no `@`; the line for each synchronous kind (alignment, background,
permission, synchronous external abort, synchronous parity/ECC) is a label followed by
` @ 0x` and `hexFixed 8 addr`, which is eight characters long, made of the characters
`0-9a-f`, and denotes `addr`. -/
theorem dump_fault_address_field (c : Consts) (addr : Nat) (m : Machine)
    (hdistinct : (fsr_table c).Nodup) (haddr : addr < 2 ^ 32) :
    (∀ status ∈ [c.FSR_FS_ASYNC_EXTERNAL_ABORT, c.FSR_FS_ASYNC_PARITY_ERROR],
      ∃ fmt, (∀ addr', dump_fault c status addr' m = LOG_ERR fmt [] m) ∧
        (emitted m (dump_fault c status addr m)).map Event.text = [some fmt] ∧
        '@' ∉ fmt.data) ∧
    (∀ status ∈ [c.FSR_FS_ALIGNMENT_FAULT, c.FSR_FS_BACKGROUND_FAULT,
        c.FSR_FS_PERMISSION_FAULT, c.FSR_FS_SYNC_EXTERNAL_ABORT, c.FSR_FS_SYNC_PARITY_ERROR],
      ∃ label : String, (emitted m (dump_fault c status addr m)).map Event.text =
        [some (label ++ " @ 0x" ++ String.mk (hexFixed 8 addr))]) ∧
    (hexFixed 8 addr).length = 8 ∧
    (∀ ch ∈ hexFixed 8 addr, ch ∈ "0123456789abcdef".data) ∧
    hexVal (hexFixed 8 addr) = addr := by
  have hmod : addr % 2 ^ 32 = addr := Nat.mod_eq_of_lt haddr
  refine ⟨?_, ?_, hexFixed_length 8 addr, hexFixed_mem 8 addr, ?_⟩
  · intro status hs
    simp only [List.mem_cons, List.mem_singleton, List.not_mem_nil, or_false] at hs
    rcases hs with rfl | rfl
    · refine ⟨"Asynchronous External Abort", ?_, ?_, by decide⟩
      · intro addr'
        exact (dump_fault_table c addr' m hdistinct).2.2.2.2.1
      · rw [(dump_fault_table c addr m hdistinct).2.2.2.2.1, text_LOG_ERR]
        rfl
    · refine ⟨"Asynchronous Parity/ECC Error", ?_, ?_, by decide⟩
      · intro addr'
        exact (dump_fault_table c addr' m hdistinct).2.2.2.2.2.2.1
      · rw [(dump_fault_table c addr m hdistinct).2.2.2.2.2.2.1, text_LOG_ERR]
        rfl
  · intro status hs
    simp only [List.mem_cons, List.mem_singleton, List.not_mem_nil, or_false] at hs
    rcases hs with rfl | rfl | rfl | rfl | rfl
    · refine ⟨"Alignment Fault", ?_⟩
      rw [(dump_fault_table c addr m hdistinct).1, text_LOG_ERR, render_alignment, hmod]
    · refine ⟨"Background Fault", ?_⟩
      rw [(dump_fault_table c addr m hdistinct).2.1, text_LOG_ERR, render_background, hmod]
    · refine ⟨"Permission Fault", ?_⟩
      rw [(dump_fault_table c addr m hdistinct).2.2.1, text_LOG_ERR, render_permission, hmod]
    · refine ⟨"Synchronous External Abort", ?_⟩
      rw [(dump_fault_table c addr m hdistinct).2.2.2.1, text_LOG_ERR, render_sync_external, hmod]
    · refine ⟨"Synchronous Parity/ECC Error", ?_⟩
      rw [(dump_fault_table c addr m hdistinct).2.2.2.2.2.1, text_LOG_ERR, render_sync_parity, hmod]
  · rw [hexVal_hexFixed]
    exact Nat.mod_eq_of_lt haddr

theorem dump_fault_address_field_witness :
    (fsr_table armv7r).Nodup ∧ 0xDEAD0000 < 2 ^ 32 ∧
    (emitted (sample 0 1 none 0 0 0)
        (dump_fault armv7r 22 0xDEAD0000 (sample 0 1 none 0 0 0))).map Event.text =
      [some "Asynchronous External Abort"] ∧
    (emitted (sample 0 1 none 0 0 0)
        (dump_fault armv7r 13 0xDEAD0000 (sample 0 1 none 0 0 0))).map Event.text =
      [some "Permission Fault @ 0xdead0000"] ∧
    hexVal (hexFixed 8 0xDEAD0000) = 0xDEAD0000 :=
  ⟨by decide, by decide, by decide, by decide,
    (dump_fault_address_field armv7r 0xDEAD0000 (sample 0 1 none 0 0 0)
      (by decide) (by decide)).2.2.2.2⟩

/-- C8: when the case labels of `dump_fault` are pairwise distinct and so are those of
`get_dbgdscr_moe_string`, for every 32-bit status code `dump_fault` appends exactly one
event, a log line.  For a code of the table the line carries that code's label:
`Alignment Fault`, `Background Fault`, `Permission Fault`, `Synchronous External Abort`,
`Synchronous Parity/ECC Error` (each followed by the address), `Asynchronous External
Abort`, `Asynchronous Parity/ECC Error`, or `Debug Event (` method of entry `)`, where the
method of entry is the label of the field `(DBGDSCR & DBGDSCR_MOE_Msk) >> DBGDSCR_MOE_Pos`:
`Halt Request`, `Breakpoint`, `Asynchronous Watchpoint`, `BKPT Instruction`,
`External Debug Request`, `Vector Catch`, `OS Unlock Catch`, `Synchronous Watchpoint`, and
`Unknown` for any other value.  For any status code outside the table the line is
`Unknown (n)` with `n` the decimal digits of the code. -/
theorem dump_fault_labels (c : Consts) (status addr : Nat) (m : Machine)
    (hdistinct : (fsr_table c).Nodup) (hmoe : (moe_table c).Nodup)
    (hstatus : status < 2 ^ 32) :
    (∃ line, (emitted m (dump_fault c status addr m)).map Event.text = [some line]) ∧
    (status = c.FSR_FS_ALIGNMENT_FAULT →
      (emitted m (dump_fault c status addr m)).map Event.text =
        [some ("Alignment Fault" ++ " @ 0x" ++ String.mk (hexFixed 8 (addr % 2 ^ 32)))]) ∧
    (status = c.FSR_FS_BACKGROUND_FAULT →
      (emitted m (dump_fault c status addr m)).map Event.text =
        [some ("Background Fault" ++ " @ 0x" ++ String.mk (hexFixed 8 (addr % 2 ^ 32)))]) ∧
    (status = c.FSR_FS_PERMISSION_FAULT →
      (emitted m (dump_fault c status addr m)).map Event.text =
        [some ("Permission Fault" ++ " @ 0x" ++ String.mk (hexFixed 8 (addr % 2 ^ 32)))]) ∧
    (status = c.FSR_FS_SYNC_EXTERNAL_ABORT →
      (emitted m (dump_fault c status addr m)).map Event.text =
        [some ("Synchronous External Abort" ++ " @ 0x" ++
          String.mk (hexFixed 8 (addr % 2 ^ 32)))]) ∧
    (status = c.FSR_FS_ASYNC_EXTERNAL_ABORT →
      (emitted m (dump_fault c status addr m)).map Event.text =
        [some "Asynchronous External Abort"]) ∧
    (status = c.FSR_FS_SYNC_PARITY_ERROR →
      (emitted m (dump_fault c status addr m)).map Event.text =
        [some ("Synchronous Parity/ECC Error" ++ " @ 0x" ++
          String.mk (hexFixed 8 (addr % 2 ^ 32)))]) ∧
    (status = c.FSR_FS_ASYNC_PARITY_ERROR →
      (emitted m (dump_fault c status addr m)).map Event.text =
        [some "Asynchronous Parity/ECC Error"]) ∧
    (status = c.FSR_FS_DEBUG_EVENT →
      (emitted m (dump_fault c status addr m)).map Event.text =
        [some ("Debug Event (" ++ get_dbgdscr_moe_string c
          ((m.DBGDSCR &&& c.DBGDSCR_MOE_Msk) >>> c.DBGDSCR_MOE_Pos) ++ ")")]) ∧
    (status ∉ fsr_table c →
      (emitted m (dump_fault c status addr m)).map Event.text =
        [some ("Unknown (" ++ toString status ++ ")")]) ∧
    get_dbgdscr_moe_string c c.DBGDSCR_MOE_HALT_REQUEST = "Halt Request" ∧
    get_dbgdscr_moe_string c c.DBGDSCR_MOE_BREAKPOINT = "Breakpoint" ∧
    get_dbgdscr_moe_string c c.DBGDSCR_MOE_ASYNC_WATCHPOINT = "Asynchronous Watchpoint" ∧
    get_dbgdscr_moe_string c c.DBGDSCR_MOE_BKPT_INSTRUCTION = "BKPT Instruction" ∧
    get_dbgdscr_moe_string c c.DBGDSCR_MOE_EXT_DEBUG_REQUEST = "External Debug Request" ∧
    get_dbgdscr_moe_string c c.DBGDSCR_MOE_VECTOR_CATCH = "Vector Catch" ∧
    get_dbgdscr_moe_string c c.DBGDSCR_MOE_OS_UNLOCK_CATCH = "OS Unlock Catch" ∧
    get_dbgdscr_moe_string c c.DBGDSCR_MOE_SYNC_WATCHPOINT = "Synchronous Watchpoint" ∧
    (∀ moe, moe ∉ moe_table c → get_dbgdscr_moe_string c moe = "Unknown") := by
  have ht := dump_fault_table c addr m hdistinct
  refine ⟨?_, ?_, ?_, ?_, ?_, ?_, ?_, ?_, ?_, ?_, moe_string_table c hmoe⟩
  · obtain ⟨fmt, args, h⟩ := dump_fault_one_line c status addr m
    exact ⟨render fmt args, by rw [h m rfl, text_LOG_ERR]⟩
  · rintro rfl; rw [ht.1, text_LOG_ERR, render_alignment]
  · rintro rfl; rw [ht.2.1, text_LOG_ERR, render_background]
  · rintro rfl; rw [ht.2.2.1, text_LOG_ERR, render_permission]
  · rintro rfl; rw [ht.2.2.2.1, text_LOG_ERR, render_sync_external]
  · rintro rfl; rw [ht.2.2.2.2.1, text_LOG_ERR]; rfl
  · rintro rfl; rw [ht.2.2.2.2.2.1, text_LOG_ERR, render_sync_parity]
  · rintro rfl; rw [ht.2.2.2.2.2.2.1, text_LOG_ERR]; rfl
  · rintro rfl
    rw [ht.2.2.2.2.2.2.2.1, dump_debug_event, text_LOG_ERR, render_debug]
  · intro hs
    rw [ht.2.2.2.2.2.2.2.2 status hs, text_LOG_ERR, render_unknown,
      Nat.mod_eq_of_lt hstatus]

theorem dump_fault_labels_witness :
    (fsr_table armv7r).Nodup ∧ (moe_table armv7r).Nodup ∧ 2 < 2 ^ 32 ∧
    (emitted (sample 0 1 none 0 0 0)
        (dump_fault armv7r 2 0x1000 (sample 0 1 none 0 0 0))).map Event.text =
      [some "Debug Event (Breakpoint)"] ∧
    31 ∉ fsr_table armv7r ∧
    (emitted (sample 0 1 none 0 0 0)
        (dump_fault armv7r 31 0x1000 (sample 0 1 none 0 0 0))).map Event.text =
      [some ("Unknown (" ++ toString 31 ++ ")")] :=
  ⟨by decide, by decide, by decide,
    ((dump_fault_labels armv7r 2 0x1000 (sample 0 1 none 0 0 0) (by decide) (by decide)
      (by decide)).2.2.2.2.2.2.2.2.1 rfl).trans (by decide),
    by decide,
    (dump_fault_labels armv7r 31 0x1000 (sample 0 1 none 0 0 0) (by decide) (by decide)
      (by decide)).2.2.2.2.2.2.2.2.2.1 (by decide)⟩

/-- C9: with verbose fault dumping, the events `z_arm_fault_data` appends are, in order and
with nothing else: the banner `***** DATA ABORT *****`; the one line `dump_fault` emits for
the status code `((DFSR & DFSR_FS1_Msk) >> 6) | (DFSR & DFSR_FS0_Msk)` and the address
`DFAR`; the three register lines with `v1 v2 v3`, `v4 v5 v6` and `v7 v8 psp` of the
callee-saved block; the call `z_arm_fatal_error(K_ERR_CPU_EXCEPTION, esf)`.  When the case
labels are pairwise distinct, the code is `FSR_FS_PERMISSION_FAULT` and `DFAR` is
`0xDEAD0000`, the detail line reads `Permission Fault @ 0xdead0000`. -/
theorem data_abort_event_order (c : Consts) (k : Kconfig) (esf : Ptr) (cs : CalleeSaved)
    (m : Machine) (hverbose : FAULT_DUMP_VERBOSE k = true) :
    ∃ detail : Event,
      emitted m (dump_fault c
        (((m.DFSR &&& c.DFSR_FS1_Msk) >>> 6) ||| (m.DFSR &&& c.DFSR_FS0_Msk)) m.DFAR m) =
        [detail] ∧
      (∃ line, detail.text = some line) ∧
      (z_arm_fault_data c k esf cs m).1 = true ∧
      emitted m (z_arm_fault_data c k esf cs m).2 =
        [Event.log "***** DATA ABORT *****" [],
         detail,
         Event.log " r4: 0x%08x  r5:  0x%08x  r6:  %08x"
           [Arg.u32 cs.v1, Arg.u32 cs.v2, Arg.u32 cs.v3],
         Event.log " r7: 0x%08x  r8:  0x%08x  r9:  %08x"
           [Arg.u32 cs.v4, Arg.u32 cs.v5, Arg.u32 cs.v6],
         Event.log "r10: 0x%08x r11:  0x%08x psp:  %08x"
           [Arg.u32 cs.v7, Arg.u32 cs.v8, Arg.u32 cs.psp],
         Event.fatal c.K_ERR_CPU_EXCEPTION esf] ∧
      ((fsr_table c).Nodup →
        ((m.DFSR &&& c.DFSR_FS1_Msk) >>> 6) ||| (m.DFSR &&& c.DFSR_FS0_Msk) =
          c.FSR_FS_PERMISSION_FAULT →
        m.DFAR = 0xDEAD0000 →
        detail.text = some "Permission Fault @ 0xdead0000") := by
  obtain ⟨fmt, args, h⟩ := dump_fault_one_line c
    (((m.DFSR &&& c.DFSR_FS1_Msk) >>> 6) ||| (m.DFSR &&& c.DFSR_FS0_Msk)) m.DFAR m
  refine ⟨Event.log fmt args, ?_, ⟨render fmt args, rfl⟩, rfl, ?_, ?_⟩
  · rw [h m rfl, emitted_LOG_ERR]
  · simp only [z_arm_fault_data, hverbose, if_true,
      h (LOG_ERR "***** DATA ABORT *****" [] m) rfl]
    simp [emitted, LOG_ERR, dump_callee_saved_registers, z_arm_fatal_error]
  · intro hd hfs hdfar
    have h1 := h m rfl
    rw [hfs, (dump_fault_table c m.DFAR m hd).2.2.1, hdfar] at h1
    have h2 := congrArg (emitted m) h1
    rw [emitted_LOG_ERR, emitted_LOG_ERR] at h2
    have h3 : Event.log "Permission Fault @ 0x%08x" [Arg.u32 0xDEAD0000] =
        Event.log fmt args := List.head_eq_of_cons_eq h2
    rw [← h3]
    exact congrArg some render_permission_dead0000

theorem data_abort_event_order_witness :
    FAULT_DUMP_VERBOSE ⟨2, true⟩ = true ∧
    (z_arm_fault_data armv7r ⟨2, true⟩ (some 1) sample_cs (sample 0 1 none 0 0 0)).1 = true ∧
    (emitted (sample 0 1 none 0 0 0)
        (z_arm_fault_data armv7r ⟨2, true⟩ (some 1) sample_cs
          (sample 0 1 none 0 0 0)).2).length = 6 :=
  ⟨by decide, by
    obtain ⟨detail, _, _, h1, h2, _⟩ :=
      data_abort_event_order armv7r ⟨2, true⟩ (some 1) sample_cs (sample 0 1 none 0 0 0)
        (by decide)
    exact ⟨h1, by rw [h2]; rfl⟩⟩

/-- C10: the status code `z_arm_fault_prefetch` passes to `dump_fault` is
`((IFSR & IFSR_FS1_Msk) >> 6) | (IFSR & IFSR_FS0_Msk)` and the one `z_arm_fault_data`
passes is `((DFSR & DFSR_FS1_Msk) >> 6) | (DFSR & DFSR_FS0_Msk)`.  With the `FS1` masks
equal to bit 10 and the `FS0` masks equal to bits 3..0, for every register value `r` both
formulas give the same code; it is below 32, its bit 4 is bit 10 of `r`, its low four bits
are the low four bits of `r`, and it is the same for any `r'` that agrees with `r` in bit
10 and in the low four bits. -/
theorem fault_status_extraction (c : Consts) (k : Kconfig) (esf : Ptr) (cs : CalleeSaved)
    (m : Machine)
    (hi1 : c.IFSR_FS1_Msk = 2 ^ 10) (hi0 : c.IFSR_FS0_Msk = 15)
    (hd1 : c.DFSR_FS1_Msk = 2 ^ 10) (hd0 : c.DFSR_FS0_Msk = 15) :
    z_arm_fault_prefetch c k esf cs m =
      (true, z_arm_fatal_error c.K_ERR_CPU_EXCEPTION esf (dump_callee_saved_registers cs
        (if FAULT_DUMP_VERBOSE k then
          dump_fault c (((m.IFSR &&& c.IFSR_FS1_Msk) >>> 6) ||| (m.IFSR &&& c.IFSR_FS0_Msk))
            m.IFAR (LOG_ERR "***** PREFETCH ABORT *****" [] m)
         else LOG_ERR "***** PREFETCH ABORT *****" [] m))) ∧
    z_arm_fault_data c k esf cs m =
      (true, z_arm_fatal_error c.K_ERR_CPU_EXCEPTION esf (dump_callee_saved_registers cs
        (if FAULT_DUMP_VERBOSE k then
          dump_fault c (((m.DFSR &&& c.DFSR_FS1_Msk) >>> 6) ||| (m.DFSR &&& c.DFSR_FS0_Msk))
            m.DFAR (LOG_ERR "***** DATA ABORT *****" [] m)
         else LOG_ERR "***** DATA ABORT *****" [] m))) ∧
    ∀ r : Nat,
      ((r &&& c.IFSR_FS1_Msk) >>> 6) ||| (r &&& c.IFSR_FS0_Msk) =
        ((r &&& c.DFSR_FS1_Msk) >>> 6) ||| (r &&& c.DFSR_FS0_Msk) ∧
      ((r &&& c.IFSR_FS1_Msk) >>> 6) ||| (r &&& c.IFSR_FS0_Msk) < 32 ∧
      (((r &&& c.IFSR_FS1_Msk) >>> 6) ||| (r &&& c.IFSR_FS0_Msk)).testBit 4 = r.testBit 10 ∧
      (((r &&& c.IFSR_FS1_Msk) >>> 6) ||| (r &&& c.IFSR_FS0_Msk)) % 16 = r % 16 ∧
      ∀ r' : Nat, r'.testBit 10 = r.testBit 10 → r' % 16 = r % 16 →
        ((r' &&& c.IFSR_FS1_Msk) >>> 6) ||| (r' &&& c.IFSR_FS0_Msk) =
          ((r &&& c.IFSR_FS1_Msk) >>> 6) ||| (r &&& c.IFSR_FS0_Msk) := by
  refine ⟨rfl, rfl, ?_⟩
  intro r
  rw [hi1, hi0, hd1, hd0]
  have hx : r % 16 < 16 := Nat.mod_lt _ (by decide)
  have hb : (r.testBit 10).toNat < 2 := by cases r.testBit 10 <;> decide
  have h4 := (fs_small _ hx _ hb).2
  refine ⟨rfl, ?_, ?_, ?_, ?_⟩
  · rw [fs_value]; omega
  · rw [fs_value, h4]; cases r.testBit 10 <;> rfl
  · rw [fs_value]; omega
  · intro r' hbit hlow
    rw [fs_value, fs_value, hbit, hlow]

theorem fault_status_extraction_witness :
    armv7r.IFSR_FS1_Msk = 2 ^ 10 ∧ armv7r.IFSR_FS0_Msk = 15 ∧
    armv7r.DFSR_FS1_Msk = 2 ^ 10 ∧ armv7r.DFSR_FS0_Msk = 15 ∧
    ((0x40d &&& armv7r.IFSR_FS1_Msk) >>> 6) ||| (0x40d &&& armv7r.IFSR_FS0_Msk) = 29 ∧
    ((0x40d &&& armv7r.IFSR_FS1_Msk) >>> 6) ||| (0x40d &&& armv7r.IFSR_FS0_Msk) < 32 :=
  ⟨rfl, rfl, rfl, rfl, by decide,
    ((fault_status_extraction armv7r ⟨2, false⟩ (some 1) sample_cs (sample 0 1 none 0 0 0)
      rfl rfl rfl rfl).2.2 0x40d).2.1⟩

end Fault
